import Mathlib

/-!
Shallow embedding of the action-dispatch core of the hello-ratatui
repository: the `Action` message enum (src/action.rs) and the `Home`
component (src/components/home.rs) with its mode-gated `update` fold,
its raw-key handler `handle_key_events`, and the scheduler brackets
spawned by `schedule_increment` / `schedule_decrement`.

The counter fields are Rust `usize` values with saturating arithmetic;
they are modelled as `Nat` clamped explicitly at `USIZE_MAX = 2^64 - 1`
(truncated `Nat` subtraction coincides with `usize::saturating_sub`).
The spawned tokio tasks cannot run inside a pure fold, so `update`
returns the task it spawns as data: a `ScheduledTask` holding the
actions the task sends before and after its one-second sleep, in send
order.  Dispatching a list of actions sequentially through `update`
models the single-consumer event loop draining the action bus.
-/

namespace HelloRatatui

/-- Maximum value of a 64-bit `usize`. -/
def USIZE_MAX : Nat := 2 ^ 64 - 1

/-- Rust `usize::saturating_add` on a 64-bit platform. -/
def satAdd (a b : Nat) : Nat := Nat.min (a + b) USIZE_MAX

/-- The `Action` enum from src/action.rs, variant for variant. -/
inductive Action where
  | Tick
  | Render
  | Resize (w h : Nat)
  | Suspend
  | Resume
  | Quit
  | Refresh
  | Error (msg : String)
  | Help
  | ToggleShowHelp
  | IncrementSingle
  | DecrementSingle
  | ScheduleIncrement
  | ScheduleDecrement
  | Increment (i : Nat)
  | Decrement (i : Nat)
  | CompleteInput (s : String)
  | EnterNormal
  | EnterInsert
  | EnterProcessing
  | ExitProcessing
  | Update
deriving DecidableEq, Repr

/-- The `Mode` enum from src/components/home.rs. -/
inductive Mode where
  | Normal
  | Insert
  | Processing
deriving DecidableEq, Repr

/-- Key codes distinguished by `Home::handle_key_events`: `Esc`, `Enter`,
printable characters (routed to the input editor), and everything else. -/
inductive KeyCode where
  | Esc
  | Enter
  | Char (c : Char)
  | Other
deriving DecidableEq, Repr

/-- A crossterm `KeyEvent`, reduced to the code `handle_key_events`
inspects (modifiers play no role in this component). -/
structure KeyEvent where
  code : KeyCode
deriving DecidableEq, Repr

/-- State of the external `tui_input::Input` line editor: the composed
text.  Only `value()` is read by the component. -/
structure Input where
  value : String
deriving DecidableEq, Repr

/-- Editing step of the external `tui_input` line editor for keys that
fall through to `self.input.handle_event(..)`: a printable character is
inserted at the cursor (modelled at end of line); other fall-through
keys are ignored.  No claim depends on the editor's internals. -/
def handle_event (inp : Input) (key : KeyEvent) : Input :=
  match key.code with
  | KeyCode.Char c => ⟨inp.value.push c⟩
  | _ => inp

/-- A ratatui `ListState`: scroll offset and selected index. -/
structure ListState where
  offset : Nat
  selected : Option Nat
deriving DecidableEq, Repr

/-- ratatui `ListState::select`: sets the selection; clearing the
selection also resets the scroll offset. -/
def select (s : ListState) (index : Option Nat) : ListState :=
  match index with
  | none => { s with selected := none, offset := 0 }
  | some i => { s with selected := some i }

/-- ratatui `ListState::select_next`: next item, or the first when
nothing is selected. -/
def select_next (s : ListState) : ListState :=
  select s (some (match s.selected with
    | some i => satAdd i 1
    | none => 0))

/-- ratatui `ListState::select_previous`: previous item, or the last
conceivable index when nothing is selected. -/
def select_previous (s : ListState) : ListState :=
  select s (some (match s.selected with
    | some i => i - 1
    | none => USIZE_MAX))

/-- The `Home` component state from src/components/home.rs.  The channel
handle `action_tx` is modelled by returning sent actions from the
operations; the draw-only `selected_tab` widget is omitted. -/
structure Home where
  show_help : Bool
  counter : Nat
  app_ticker : Nat
  render_ticker : Nat
  mode : Mode
  input : Input
  keymap : List (KeyEvent × Action)
  text : List String
  last_events : List KeyEvent
  text_list : List String
  text_list_state : ListState
deriving DecidableEq, Repr

/-- `Home::default()`: counter 0, mode Normal, empty buffers. -/
def Home.new : Home where
  show_help := false
  counter := 0
  app_ticker := 0
  render_ticker := 0
  mode := Mode.Normal
  input := ⟨""⟩
  keymap := []
  text := []
  last_events := []
  text_list := []
  text_list_state := ⟨0, none⟩

/-- `Home::tick`: saturating-increments `app_ticker` and drains
`last_events`. -/
def tick (h : Home) : Home :=
  { h with app_ticker := satAdd h.app_ticker 1, last_events := [] }

/-- `Home::render_tick`: saturating-increments `render_ticker`. -/
def render_tick (h : Home) : Home :=
  { h with render_ticker := satAdd h.render_ticker 1 }

/-- `Home::add`: pushes the string onto both `text` and `text_list`. -/
def add (h : Home) (s : String) : Home :=
  { h with text := h.text ++ [s], text_list := h.text_list ++ [s] }

/-- `Home::increment`: saturating-adds to the counter and moves the list
selection forward. -/
def increment (h : Home) (i : Nat) : Home :=
  { h with
      counter := satAdd h.counter i
      text_list_state := select_next h.text_list_state }

/-- `Home::decrement`: saturating-subtracts from the counter and moves
the list selection backward. -/
def decrement (h : Home) (i : Nat) : Home :=
  { h with
      counter := h.counter - i
      text_list_state := select_previous h.text_list_state }

/-- The actions a scheduler task sends, split around its one-second
sleep; within each phase the list order is the send order. -/
structure ScheduledTask where
  before_delay : List Action
  after_delay : List Action
deriving DecidableEq, Repr

/-- The task spawned by `Home::schedule_increment(i)`: it sends
`EnterProcessing`, sleeps one second, then sends `Increment(i)` and
`ExitProcessing`. -/
def schedule_increment (i : Nat) : ScheduledTask where
  before_delay := [Action.EnterProcessing]
  after_delay := [Action.Increment i, Action.ExitProcessing]

/-- The task spawned by `Home::schedule_decrement(i)`: it sends
`EnterProcessing`, sleeps one second, then sends `Decrement(i)` and
`ExitProcessing`. -/
def schedule_decrement (i : Nat) : ScheduledTask where
  before_delay := [Action.EnterProcessing]
  after_delay := [Action.Decrement i, Action.ExitProcessing]

/-- All actions a scheduler task sends, in send order. -/
def ScheduledTask.sends (t : ScheduledTask) : List Action :=
  t.before_delay ++ t.after_delay

/-- `Home::handle_key_events`: records the key in `last_events`, then in
Normal and Processing mode returns no action; in Insert mode `Esc` maps
to `EnterNormal`, `Enter` first sends `CompleteInput(input.value())`
through the action channel and returns `EnterNormal`, and any other key
is fed to the input editor, returning `Update`.  The result is the new
state, the actions sent directly on the channel, and the returned
action. -/
def handle_key_events (h : Home) (key : KeyEvent) :
    Home × List Action × Option Action :=
  let h := { h with last_events := h.last_events ++ [key] }
  match h.mode with
  | Mode.Normal => (h, [], none)
  | Mode.Processing => (h, [], none)
  | Mode.Insert =>
    match key.code with
    | KeyCode.Esc => (h, [], some Action.EnterNormal)
    | KeyCode.Enter =>
        (h, [Action.CompleteInput h.input.value], some Action.EnterNormal)
    | _ => ({ h with input := handle_event h.input key }, [],
        some Action.Update)

/-- `Home::update`: folds one action into the state.  The counter
actions `IncrementSingle`, `DecrementSingle`, `ScheduleIncrement` and
`ScheduleDecrement` carry the guard `self.mode != Mode::Insert`; when
the guard fails they fall through to the wildcard no-op arm.  The
schedule actions spawn a task, returned here as data.  The Rust method
always returns `Ok(None)` as its follow-up action. -/
def update (h : Home) (action : Action) : Home × Option ScheduledTask :=
  match action with
  | Action.Tick => (tick h, none)
  | Action.Render => (render_tick h, none)
  | Action.ToggleShowHelp => ({ h with show_help := !h.show_help }, none)
  | Action.IncrementSingle =>
      if h.mode ≠ Mode.Insert then (increment h 1, none) else (h, none)
  | Action.DecrementSingle =>
      if h.mode ≠ Mode.Insert then (decrement h 1, none) else (h, none)
  | Action.ScheduleIncrement =>
      if h.mode ≠ Mode.Insert then (h, some (schedule_increment 1))
      else (h, none)
  | Action.ScheduleDecrement =>
      if h.mode ≠ Mode.Insert then (h, some (schedule_decrement 1))
      else (h, none)
  | Action.Increment i => (increment h i, none)
  | Action.Decrement i => (decrement h i, none)
  | Action.CompleteInput s => (add h s, none)
  | Action.EnterNormal => ({ h with mode := Mode.Normal }, none)
  | Action.EnterInsert => ({ h with mode := Mode.Insert }, none)
  | Action.EnterProcessing => ({ h with mode := Mode.Processing }, none)
  | Action.ExitProcessing => ({ h with mode := Mode.Normal }, none)
  | _ => (h, none)

/-- Sequential dispatch of a list of actions through `update`, as the
single consumer loop performs it while draining the bus. -/
def dispatch (h : Home) (acts : List Action) : Home :=
  acts.foldl (fun st a => (update st a).1) h

/-- Pressing Enter in Insert mode, then dispatching everything that key
press put on the bus: the actions sent directly by the handler followed
by the action it returned (the driver enqueues the returned action after
the handler finishes). -/
def submitEnter (h : Home) : Home :=
  let r := handle_key_events h ⟨KeyCode.Enter⟩
  dispatch r.1 (r.2.1 ++ r.2.2.toList)

/-- Claim C1: while `mode == Insert`, the actions `IncrementSingle`,
`DecrementSingle`, `ScheduleIncrement` and `ScheduleDecrement` leave the
entire state unchanged and spawn nothing (silently ignored); while
`mode != Insert`, `IncrementSingle` adds 1 to the counter saturating at
`USIZE_MAX` and `DecrementSingle` subtracts 1 saturating at 0. -/
theorem C1_counter_gating (st : Home) :
    (st.mode = Mode.Insert →
      update st Action.IncrementSingle = (st, none) ∧
      update st Action.DecrementSingle = (st, none) ∧
      update st Action.ScheduleIncrement = (st, none) ∧
      update st Action.ScheduleDecrement = (st, none)) ∧
    (st.mode ≠ Mode.Insert →
      (update st Action.IncrementSingle).1.counter = satAdd st.counter 1 ∧
      (update st Action.DecrementSingle).1.counter = st.counter - 1) := by
  constructor
  · intro hm
    simp [update, hm]
  · intro hm
    simp [update, hm, increment, decrement]

/-- Witness for C1 at concrete states in Insert and in Normal mode. -/
theorem C1_counter_gating_witness :
    update { Home.new with mode := Mode.Insert } Action.IncrementSingle
        = ({ Home.new with mode := Mode.Insert }, none) ∧
    (update Home.new Action.IncrementSingle).1.counter
        = satAdd Home.new.counter 1 :=
  ⟨((C1_counter_gating { Home.new with mode := Mode.Insert }).1 rfl).1,
   ((C1_counter_gating Home.new).2 (by decide)).1⟩

/-- Counterexample to claim C2: from a state in Insert mode (mode not
Processing), `ExitProcessing` does not leave the mode unchanged — the
code sets it to Normal unconditionally. -/
theorem C2_exitProcessing_cex :
    (update { Home.new with mode := Mode.Insert } Action.ExitProcessing).1.mode
      ≠ ({ Home.new with mode := Mode.Insert } : Home).mode := by
  decide

/-- Claim C2 amended: the Enter*/Exit* actions set the mode
unconditionally — `EnterNormal` to Normal, `EnterInsert` to Insert,
`EnterProcessing` to Processing, and `ExitProcessing` to Normal even
when the mode is not Processing; applying `EnterNormal` while already in
Normal leaves the whole state unchanged. -/
theorem C2_mode_transitions (st : Home) :
    (update st Action.EnterNormal).1 = { st with mode := Mode.Normal } ∧
    (update st Action.EnterInsert).1 = { st with mode := Mode.Insert } ∧
    (update st Action.EnterProcessing).1 = { st with mode := Mode.Processing } ∧
    (update st Action.ExitProcessing).1 = { st with mode := Mode.Normal } ∧
    (st.mode = Mode.Normal → (update st Action.EnterNormal).1 = st) := by
  refine ⟨rfl, rfl, rfl, rfl, ?_⟩
  intro hm
  cases st
  simp_all [update]

/-- Witness for C2: `EnterNormal` from the initial (Normal-mode) state
leaves it unchanged. -/
theorem C2_mode_transitions_witness :
    (update Home.new Action.EnterNormal).1 = Home.new :=
  (C2_mode_transitions Home.new).2.2.2.2 rfl

/-- Counterexample to claim C3: applying `CompleteInput "hi"` in Insert
mode does not transition the mode to Normal — `update` only appends to
the history and leaves the mode untouched. -/
theorem C3_completeInput_mode_cex :
    (update { Home.new with mode := Mode.Insert }
        (Action.CompleteInput "hi")).1.mode ≠ Mode.Normal := by
  decide

/-- Claim C3 amended: `CompleteInput s` appends exactly one entry `s` to
the history and leaves the mode unchanged (the Insert-to-Normal
transition is carried by the separate `EnterNormal` action the key
handler returns alongside); no other action ever appends to the
history. -/
theorem C3_history_append (st : Home) (s : String) :
    (update st (Action.CompleteInput s)).1.text = st.text ++ [s] ∧
    (update st (Action.CompleteInput s)).1.mode = st.mode ∧
    ∀ a : Action, (∀ s2 : String, a ≠ Action.CompleteInput s2) →
      (update st a).1.text = st.text := by
  refine ⟨rfl, rfl, ?_⟩
  intro a ha
  cases a with
  | CompleteInput s2 => exact absurd rfl (ha s2)
  | Tick => simp [update, tick]
  | Render => simp [update, render_tick]
  | ToggleShowHelp => simp [update]
  | IncrementSingle =>
      simp only [update]
      split <;> simp [increment]
  | DecrementSingle =>
      simp only [update]
      split <;> simp [decrement]
  | ScheduleIncrement =>
      simp only [update]
      split <;> simp
  | ScheduleDecrement =>
      simp only [update]
      split <;> simp
  | Increment i => simp [update, increment]
  | Decrement i => simp [update, decrement]
  | EnterNormal => rfl
  | EnterInsert => rfl
  | EnterProcessing => rfl
  | ExitProcessing => rfl
  | Resize w h2 => rfl
  | Suspend => rfl
  | Resume => rfl
  | Quit => rfl
  | Refresh => rfl
  | Error m => rfl
  | Help => rfl
  | Update => rfl

/-- Witness for C3: appending "hi" from the initial state, and a
non-`CompleteInput` action (`Tick`) leaving the history untouched. -/
theorem C3_history_append_witness :
    (update Home.new (Action.CompleteInput "hi")).1.text
        = Home.new.text ++ ["hi"] ∧
    (update Home.new Action.Tick).1.text = Home.new.text :=
  ⟨(C3_history_append Home.new "hi").1,
   (C3_history_append Home.new "hi").2.2 Action.Tick (by intro s2; simp)⟩

/-- Counterexample to claim C4: submitting from Insert mode with buffer
"hi" does not clear the input buffer — nothing in the code ever resets
`self.input`, so it still holds "hi" after the submit. -/
theorem C4_input_not_cleared_cex :
    (submitEnter { Home.new with
        mode := Mode.Insert, input := ⟨"hi"⟩ }).input.value ≠ "" := by
  decide

/-- Claim C4 amended: from Insert mode with buffer "hi", the Enter key
press and the dispatch of the actions it produces make the history gain
"hi" and the mode become Normal, but the input buffer is not cleared:
it still contains "hi". -/
theorem C4_submit (st : Home) (hm : st.mode = Mode.Insert) :
    (submitEnter st).text = st.text ++ [st.input.value] ∧
    (submitEnter st).mode = Mode.Normal ∧
    (submitEnter st).input = st.input := by
  simp [submitEnter, handle_key_events, hm, dispatch, update, add]

/-- Witness for C4 at the concrete Insert-mode state with buffer "hi". -/
theorem C4_submit_witness :
    (submitEnter { Home.new with mode := Mode.Insert, input := ⟨"hi"⟩ }).text
        = ({ Home.new with mode := Mode.Insert, input := ⟨"hi"⟩ } : Home).text
            ++ ["hi"] ∧
    (submitEnter { Home.new with
        mode := Mode.Insert, input := ⟨"hi"⟩ }).mode = Mode.Normal ∧
    (submitEnter { Home.new with mode := Mode.Insert, input := ⟨"hi"⟩ }).input
        = ⟨"hi"⟩ :=
  C4_submit { Home.new with mode := Mode.Insert, input := ⟨"hi"⟩ } rfl

/-- Counterexample to claim C5: with the tick counter already at
`USIZE_MAX`, `Tick` does not increment it by exactly 1 — `saturating_add`
keeps it at `USIZE_MAX`. -/
theorem C5_tick_saturation_cex :
    (update { Home.new with app_ticker := USIZE_MAX } Action.Tick).1.app_ticker
      ≠ ({ Home.new with app_ticker := USIZE_MAX } : Home).app_ticker + 1 := by
  decide

/-- Claim C5 amended: `Tick` empties `last_events` regardless of its
prior contents, and increments `app_ticker` saturating at `USIZE_MAX`:
by exactly 1 whenever it is below `USIZE_MAX`, leaving it unchanged at
`USIZE_MAX`. -/
theorem C5_tick (st : Home) :
    (update st Action.Tick).1.last_events = [] ∧
    (update st Action.Tick).1.app_ticker = satAdd st.app_ticker 1 ∧
    (st.app_ticker < USIZE_MAX →
      (update st Action.Tick).1.app_ticker = st.app_ticker + 1) := by
  refine ⟨rfl, rfl, ?_⟩
  intro hlt
  show satAdd st.app_ticker 1 = st.app_ticker + 1
  show min (st.app_ticker + 1) USIZE_MAX = st.app_ticker + 1
  exact min_eq_left (by omega)

/-- Witness for C5: a state with nonempty `last_events` and the tick
counter below the maximum. -/
theorem C5_tick_witness :
    (update { Home.new with
        last_events := [⟨KeyCode.Esc⟩] } Action.Tick).1.last_events = [] ∧
    (update { Home.new with
        last_events := [⟨KeyCode.Esc⟩] } Action.Tick).1.app_ticker
      = ({ Home.new with last_events := [⟨KeyCode.Esc⟩] } : Home).app_ticker
          + 1 :=
  ⟨(C5_tick { Home.new with last_events := [⟨KeyCode.Esc⟩] }).1,
   (C5_tick { Home.new with last_events := [⟨KeyCode.Esc⟩] }).2.2 (by decide)⟩

/-- Claim C6: when `counter < n`, both the `decrement` method and the
`Decrement n` action clamp the counter at 0; the unsigned counter never
underflows or wraps. -/
theorem C6_decrement_clamps (st : Home) (n : Nat) (hlt : st.counter < n) :
    (decrement st n).counter = 0 ∧
    (update st (Action.Decrement n)).1.counter = 0 := by
  have h0 : st.counter - n = 0 := Nat.sub_eq_zero_of_le (Nat.le_of_lt hlt)
  exact ⟨h0, h0⟩

/-- Witness for C6: from counter 0, `Decrement 3` yields counter 0. -/
theorem C6_decrement_clamps_witness :
    ({ Home.new with counter := 0 } : Home).counter < 3 ∧
    (update { Home.new with counter := 0 } (Action.Decrement 3)).1.counter
        = 0 :=
  ⟨by decide, (C6_decrement_clamps { Home.new with counter := 0 } 3
    (by decide)).2⟩

/-- Claim C7: `increment n` followed by `decrement n` restores the
counter exactly whenever the increment does not saturate, i.e. when
`counter + n` stays within `USIZE_MAX`. -/
theorem C7_roundtrip (st : Home) (n : Nat)
    (hns : st.counter + n ≤ USIZE_MAX) :
    (decrement (increment st n) n).counter = st.counter := by
  show satAdd st.counter n - n = st.counter
  simp [satAdd, Nat.min_eq_left hns]

/-- Witness for C7: counter 10, amount 4 round-trips to 10. -/
theorem C7_roundtrip_witness :
    ({ Home.new with counter := 10 } : Home).counter + 4 ≤ USIZE_MAX ∧
    (decrement (increment { Home.new with counter := 10 } 4) 4).counter
        = 10 :=
  ⟨by decide, C7_roundtrip { Home.new with counter := 10 } 4 (by decide)⟩

/-- Claim C8: in Normal and in Processing mode, `handle_key_events`
sends nothing on the action channel and returns no action for every key
event (raw input is effectively suspended). -/
theorem C8_keys_suspended (st : Home) (k : KeyEvent)
    (hm : st.mode = Mode.Normal ∨ st.mode = Mode.Processing) :
    (handle_key_events st k).2.1 = [] ∧
    (handle_key_events st k).2.2 = none := by
  rcases hm with hm | hm <;> simp [handle_key_events, hm]

/-- Witness for C8: an Esc key in the initial Normal-mode state and in a
Processing-mode state produces no action. -/
theorem C8_keys_suspended_witness :
    (handle_key_events Home.new ⟨KeyCode.Esc⟩).2.2 = none ∧
    (handle_key_events { Home.new with
        mode := Mode.Processing } ⟨KeyCode.Esc⟩).2.2 = none :=
  ⟨(C8_keys_suspended Home.new ⟨KeyCode.Esc⟩ (Or.inl rfl)).2,
   (C8_keys_suspended { Home.new with mode := Mode.Processing }
      ⟨KeyCode.Esc⟩ (Or.inr rfl)).2⟩

/-- Claim C9: in Normal mode the `ScheduleIncrement` and
`ScheduleDecrement` actions leave the state unchanged and spawn the
scheduler task; every such task sends `EnterProcessing`, then its
payload `Increment n` or `Decrement n`, then `ExitProcessing`, in that
order; dispatching the increment bracket makes the mode Processing
immediately, keeps it Processing at the intermediate step, and ends with
mode Normal and the counter increased by `n` (saturating; exactly `+ n`
when no saturation occurs). -/
theorem C9_scheduled_bracket (st : Home) (n : Nat)
    (hm : st.mode = Mode.Normal) :
    update st Action.ScheduleIncrement = (st, some (schedule_increment 1)) ∧
    update st Action.ScheduleDecrement = (st, some (schedule_decrement 1)) ∧
    (schedule_increment n).sends
        = [Action.EnterProcessing, Action.Increment n,
            Action.ExitProcessing] ∧
    (schedule_decrement n).sends
        = [Action.EnterProcessing, Action.Decrement n,
            Action.ExitProcessing] ∧
    (update st Action.EnterProcessing).1.mode = Mode.Processing ∧
    (update (update st Action.EnterProcessing).1
        (Action.Increment n)).1.mode = Mode.Processing ∧
    (dispatch st (schedule_increment n).sends).mode = Mode.Normal ∧
    (dispatch st (schedule_increment n).sends).counter
        = satAdd st.counter n ∧
    (st.counter + n ≤ USIZE_MAX →
      (dispatch st (schedule_increment n).sends).counter
          = st.counter + n) := by
  refine ⟨by simp [update, hm], by simp [update, hm], rfl, rfl, rfl, rfl,
    rfl, rfl, ?_⟩
  intro hns
  show satAdd st.counter n = st.counter + n
  simp [satAdd, Nat.min_eq_left hns]

/-- Witness for C9: scheduling from the initial state with amount 5. -/
theorem C9_scheduled_bracket_witness :
    (dispatch Home.new (schedule_increment 5).sends).mode = Mode.Normal ∧
    (dispatch Home.new (schedule_increment 5).sends).counter
        = Home.new.counter + 5 := by
  have h := C9_scheduled_bracket Home.new 5 rfl
  exact ⟨h.2.2.2.2.2.2.1, h.2.2.2.2.2.2.2.2 (by decide)⟩

/-- Claim C10: every call to `handle_key_events` appends the key to
`last_events`, in every mode, even when the handler returns no action;
the recorded keys persist until `Tick` clears the sequence. -/
theorem C10_keys_recorded (st : Home) (k : KeyEvent) :
    (handle_key_events st k).1.last_events = st.last_events ++ [k] ∧
    (update st Action.Tick).1.last_events = [] := by
  refine ⟨?_, rfl⟩
  cases hm : st.mode with
  | Normal => simp [handle_key_events, hm]
  | Processing => simp [handle_key_events, hm]
  | Insert =>
      cases k with
      | mk code => cases code <;> simp [handle_key_events, hm]

end HelloRatatui
